import Mathlib

/-!
Shallow embedding of the AGV protocol client (src/agv_control.py and
src/agv_laser_get.py).  Bytes are modelled as natural numbers, the TCP
socket as a scripted stream of bytes together with a schedule of chunk
sizes the transport delivers per recv call, and the vendor module
rbkNetProtoEnums (packMsg / unpackHead) and the JSON library as opaque
function parameters, following the specification, which treats them as
an opaque dependency.
-/

/-- Model of a connected TCP socket: `data` is the byte stream the peer
will deliver before closing the connection, `sched` gives, per recv
call, an upper bound on how many bytes the transport hands over in that
call (TCP may deliver data in arbitrary chunk sizes). -/
structure Sock where
  data : List Nat
  sched : List Nat
deriving Repr, DecidableEq

/-- Model of `sock.recv(m)`: returns between 1 and `m` bytes while the
stream is non-empty (the exact amount picked by the schedule), and the
empty string exactly when the peer has closed the connection. -/
def Sock.recv (s : Sock) (m : Nat) : List Nat × Sock :=
  if s.data.isEmpty then ([], s)
  else
    let c := min m (max 1 (s.sched.headD m))
    (s.data.take c, ⟨s.data.drop c, s.sched.drop 1⟩)

/-- Loop body of `receive_full_data` (src/agv_laser_get.py lines 69-78):
`while remaining > 0: chunk = sock.recv(min(remaining, 8192)); if not
chunk: return None; received += chunk; remaining -= len(chunk)`.
The third component counts the number of recv calls performed. -/
def receive_full_loop (s : Sock) (remaining : Nat) (acc : List Nat) (cnt : Nat) :
    Option (List Nat) × Sock × Nat :=
  if h : 0 < remaining then
    if hc : (s.recv (min remaining 8192)).1 = [] then
      (none, (s.recv (min remaining 8192)).2, cnt + 1)
    else
      receive_full_loop (s.recv (min remaining 8192)).2
        (remaining - (s.recv (min remaining 8192)).1.length)
        (acc ++ (s.recv (min remaining 8192)).1) (cnt + 1)
  else (some acc, s, cnt)
termination_by remaining
decreasing_by
  have hl : 0 < (s.recv (min remaining 8192)).1.length := List.length_pos.mpr hc
  omega

/-- Model of `receive_full_data(sock, expected_len)` from
src/agv_laser_get.py lines 67-83: loop until the expected number of
bytes has accumulated, return None on a zero-byte read (peer closed),
and finally re-check `len(received) != expected_len`.  The extra Nat
counts recv calls. -/
def receive_full_data (s : Sock) (expected : Nat) : Option (List Nat) × Sock × Nat :=
  match receive_full_loop s expected [] 0 with
  | (none, s2, c) => (none, s2, c)
  | (some received, s2, c) =>
      (if received.length = expected then some received else none, s2, c)

/-!
Laser node model (src/agv_laser_get.py).  Distances and angles are
modelled as rationals; the JSON beam dictionaries become `Beam` records
with optional fields, matching the `.get` calls of the source.
-/

/-- Configuration constant AGV_IP (src/agv_laser_get.py line 17). -/
def AGV_IP : String := "192.168.1.121"

/-- Configuration constant API_PORT_STATE (line 18). -/
def API_PORT_STATE : Nat := 19204

/-- Configuration constant LASER_STEP (line 20). -/
def LASER_STEP : Nat := 1

/-- Configuration constant LASER_RANGE_MAX, metres (line 22). -/
def LASER_RANGE_MAX : ℚ := 5

/-- Configuration constant LASER_RANGE_MIN, metres (line 23). -/
def LASER_RANGE_MIN : ℚ := 1 / 10

/-- Configuration constant ROS_PUB_FREQ (line 24). -/
def ROS_PUB_FREQ : Nat := 10

/-- Protocol constant MAX_DATA_LEN, 10 MiB (line 28); the same literal
appears inline in src/agv_control.py line 50. -/
def MAX_DATA_LEN : Nat := 10 * 1024 * 1024

/-- Protocol constant ROBOT_STATUS_LASER_RESP (line 29). -/
def ROBOT_STATUS_LASER_RESP : Nat := 11009

/-- Model of validate_laser_params (lines 31-42). -/
def validate_laser_params : Bool :=
  decide (0 ≤ LASER_STEP ∧ LASER_STEP ≤ 100) &&
  decide ((1 : ℚ) / 100 ≤ LASER_RANGE_MIN ∧ LASER_RANGE_MIN < LASER_RANGE_MAX ∧
    LASER_RANGE_MAX ≤ 20) &&
  decide (1 ≤ ROS_PUB_FREQ ∧ ROS_PUB_FREQ ≤ 50)

/-- Model of validate_configuration (lines 44-52). -/
def validate_configuration : Bool :=
  (!decide (AGV_IP = "")) && "192.168".data.isPrefixOf AGV_IP.data &&
  decide (1 ≤ API_PORT_STATE ∧ API_PORT_STATE ≤ 65535)

/-- One beam dictionary from the sensor payload: the source accesses
the keys angle, dist and valid with presence checks or defaults, so all
three fields are optional here. -/
structure Beam where
  angle : Option ℚ
  dist : Option ℚ
  valid : Option Bool
deriving Repr, DecidableEq

/-- One element of the lasers list; the source reads its beams key with
default empty list (line 184). -/
structure LaserGroup where
  beams : List Beam
deriving Repr, DecidableEq

/-- The decoded sensor JSON body: the source reads the lasers key with
default empty list (line 177). -/
structure LaserJson where
  lasers : List LaserGroup
deriving Repr, DecidableEq

/-- Per-beam admission test of the filter loop, src/agv_laser_get.py
lines 186-193: the beam must carry both angle and dist, its valid flag
(default False) must be true, and the distance must lie in the
configured range; the bounds are passed explicitly here because the
source reads them from the module constants. -/
def beamKeep (rmin rmax : ℚ) (b : Beam) : Option (ℚ × ℚ) :=
  match b.angle, b.dist with
  | some a, some d =>
      if b.valid.getD false then
        if rmin ≤ d ∧ d ≤ rmax then some (a, d) else none
      else none
  | _, _ => none

/-- The beam-collection loop of src/agv_laser_get.py lines 182-193: for
each group in order, for each beam in order, append the admitted pairs
to valid_beams. -/
def collectValid (rmin rmax : ℚ) (lasers : List LaserGroup) : List (ℚ × ℚ) :=
  lasers.foldl (fun acc g => acc ++ g.beams.filterMap (beamKeep rmin rmax)) []

/-- Modelled from the spec (section 4.4): include a beam, in source
order over the flattened groups, exactly when it carries both an angle
and a distance field, its validity flag is true, and
rangeMin ≤ distance ≤ rangeMax.  Used only as the comparison point for
the refinement claim about the filter. -/
def specFilter (rmin rmax : ℚ) (lasers : List LaserGroup) : List (ℚ × ℚ) :=
  ((lasers.map fun g => g.beams).flatten).filterMap fun b =>
    match b.angle, b.dist with
    | some a, some d =>
        if b.valid.getD false = true ∧ rmin ≤ d ∧ d ≤ rmax then some (a, d) else none
    | _, _ => none

/-- Model of get_laser_from_agv (src/agv_laser_get.py lines 106-207)
from the point where the connection `s` has been established and the
request sent: receive the 16-byte header in a single recv, unpack it
with the opaque vendor function `U`, enforce the 10 MiB bound before
any body read, check the response type, read the body exactly with
receive_full_data, parse it with the opaque JSON parser `P`, and filter
the beams.  The source also rejects a negative declared length
(line 153), which cannot arise in this Nat model.  The second component
counts recv calls (header plus body chunks).  Every failure path of the
source is `return None`; here it is `none`. -/
def get_laser_from_agv (U : List Nat → Nat × Nat) (P : List Nat → Option LaserJson)
    (s : Sock) : Option (List (ℚ × ℚ)) × Nat :=
  if !(validate_configuration && validate_laser_params) then (none, 0)
  else
    let pr := s.recv 16
    if pr.1.length ≠ 16 then (none, 1)
    else
      let hd := U pr.1
      if hd.1 > MAX_DATA_LEN then (none, 1)
      else if hd.2 ≠ ROBOT_STATUS_LASER_RESP then (none, 1)
      else
        match receive_full_data pr.2 hd.1 with
        | (none, _, c) => (none, 1 + c)
        | (some body, _, c) =>
            match P body with
            | none => (none, 1 + c)
            | some j =>
                if j.lasers.isEmpty then (none, 1 + c)
                else
                  let vb := collectValid LASER_RANGE_MIN LASER_RANGE_MAX j.lasers
                  if vb.isEmpty then (none, 1 + c) else (some vb, 1 + c)

/-!
Control node model (src/agv_control.py).  The function
send_control_command is a retry loop whose only interactions with the
outside world are one send and up to two recv calls per attempt, plus a
reconnect inside the socket-error handler and a fixed 0.5 s sleep
between attempts.  Each attempt is driven by an `AttemptEnv` recording
what the network does on that attempt, and the run is observed through
a list of events `Ev`.
-/

/-- Decoded command-response JSON body: the source reads only
ret_code (default 0) and err_msg (default a fixed message), so the body
is modelled by those two optional fields. -/
structure RespJson where
  ret_code : Option Int
  err_msg : Option String
deriving Repr, DecidableEq

/-- Outcome of one socket primitive: a timeout exception, a socket
error exception, or delivered bytes (possibly fewer than requested —
recv returns at most the requested count). -/
inductive SockRes where
  | timeout
  | sockErr
  | bytes (bs : List Nat)
deriving Repr, DecidableEq

/-- Network behaviour for one iteration of the retry loop: whether
so.send succeeds, the result of the 16-byte header recv, and the result
of the body recv (consulted only when the attempt reaches it). -/
structure AttemptEnv where
  sendOk : Bool
  hdr : SockRes
  body : SockRes
deriving Repr, DecidableEq

/-- Observable events of a send_control_command run. -/
inductive Ev where
  | send
  | recvHdr
  | recvBody
  | reconnect
  | sleep
  | logErr (msg : String)
deriving Repr, DecidableEq

/-- How one iteration of the loop body ends (which branch of the source
reached the bottom of the for body). -/
inductive Step where
  | success
  | appRejected
  | contShort
  | contOversize
  | caughtTimeout
  | caughtSockErr
  | caughtJson
deriving Repr, DecidableEq

/-- One iteration of the for body of send_control_command
(src/agv_control.py lines 33-77).  `U` models the opaque vendor
unpackHead, `P` models UTF-8 decode plus json.loads (none = decode or
parse failure; both exception handlers behave identically: log and fall
through).  `canRecon` is the `i < retry` guard of the reconnect inside
the socket-error handler (lines 69-73); the model assumes the reconnect
itself succeeds, as the source has no handler for a failing reconnect.
When the declared length is 0 the source skips the body recv and
parses the literal string of an empty JSON object, which yields a body
with no ret_code (lines 54-58). -/
def runAttempt (U : List Nat → Nat × Nat) (P : List Nat → Option RespJson)
    (canRecon : Bool) (io : AttemptEnv) : List Ev × Step :=
  if !io.sendOk then
    ([Ev.send] ++ (if canRecon then [Ev.reconnect] else []), Step.caughtSockErr)
  else
    match io.hdr with
    | SockRes.timeout => ([Ev.send, Ev.recvHdr], Step.caughtTimeout)
    | SockRes.sockErr =>
        ([Ev.send, Ev.recvHdr] ++ (if canRecon then [Ev.reconnect] else []),
         Step.caughtSockErr)
    | SockRes.bytes h =>
        if h.length ≠ 16 then ([Ev.send, Ev.recvHdr], Step.contShort)
        else if (U h).1 > 10 * 1024 * 1024 then
          ([Ev.send, Ev.recvHdr], Step.contOversize)
        else if (U h).1 = 0 then ([Ev.send, Ev.recvHdr], Step.success)
        else
          match io.body with
          | SockRes.timeout => ([Ev.send, Ev.recvHdr, Ev.recvBody], Step.caughtTimeout)
          | SockRes.sockErr =>
              ([Ev.send, Ev.recvHdr, Ev.recvBody] ++
                 (if canRecon then [Ev.reconnect] else []), Step.caughtSockErr)
          | SockRes.bytes b =>
              match P b with
              | none => ([Ev.send, Ev.recvHdr, Ev.recvBody], Step.caughtJson)
              | some j =>
                  if j.ret_code.getD 0 = 0 then
                    ([Ev.send, Ev.recvHdr, Ev.recvBody], Step.success)
                  else
                    ([Ev.send, Ev.recvHdr, Ev.recvBody,
                      Ev.logErr (j.err_msg.getD "未知错误")], Step.appRejected)

/-- The for loop of send_control_command: `attempts` is the number of
iterations still to run (retry + 1 initially), so `i < retry` of the
source is `attempts > 1` here.  After a success the function returns
True at once; the two `continue` branches (short header, oversized
length) skip the inter-attempt sleep (lines 43 and 52); every other
failing branch sleeps before the next attempt (lines 79-80); when the
loop ends the function returns False (line 83). -/
def runLoop (U : List Nat → Nat × Nat) (P : List Nat → Option RespJson) :
    Nat → List AttemptEnv → Bool × List Ev
  | 0, _ => (false, [])
  | _ + 1, [] => (false, [])
  | n + 1, io :: rest =>
      let r := runAttempt U P (n != 0) io
      if r.2 = Step.success then (true, r.1)
      else
        let slp : List Ev :=
          if n ≠ 0 ∧ r.2 ≠ Step.contShort ∧ r.2 ≠ Step.contOversize then [Ev.sleep]
          else []
        if n = 0 then (false, r.1 ++ slp)
        else
          let rec2 := runLoop U P n rest
          (rec2.1, r.1 ++ slp ++ rec2.2)

/-- Model of send_control_command (src/agv_control.py lines 20-83)
after packMsg has succeeded: `connected` is the `if not so` guard
(lines 23-25), `retry` the retry parameter, and `ios` the scripted
network behaviour, one entry per attempt. -/
def send_control_command (U : List Nat → Nat × Nat) (P : List Nat → Option RespJson)
    (connected : Bool) (retry : Nat) (ios : List AttemptEnv) : Bool × List Ev :=
  if !connected then (false, [])
  else runLoop U P (retry + 1) ios

/-- Count the occurrences of one event in a trace. -/
def countEv (e : Ev) : List Ev → Nat
  | [] => 0
  | x :: t => (if x = e then 1 else 0) + countEv e t

/-- Concrete unpack function used for witnesses and counterexamples:
the first byte of the header is the declared length, the second the
correlator (the true vendor layout is opaque, so any concrete function
is a legitimate instance). -/
def unpackDemo (h : List Nat) : Nat × Nat := (h.headD 0, h.tail.headD 0)

/-- Concrete parse function used for witnesses and counterexamples:
byte list 123,125 is the empty JSON object, byte 98 stands for a body
with ret_code 1 and err_msg busy, byte 48 for a body with ret_code 0,
anything else fails to parse. -/
def parseDemo (b : List Nat) : Option RespJson :=
  if b = [123, 125] then some ⟨none, none⟩
  else if b = [98] then some ⟨some 1, some "busy"⟩
  else if b = [48] then some ⟨some 0, none⟩
  else none

/-- Header bytes declaring a 20-byte body. -/
def hdr20 : List Nat := 20 :: List.replicate 15 0

/-- Header bytes declaring an oversized body (10 MiB + 1). -/
def hdrBig : List Nat := (10 * 1024 * 1024 + 1) :: List.replicate 15 0

/-- Attempt that times out waiting for the header. -/
def timeoutEnv : AttemptEnv := ⟨true, SockRes.timeout, SockRes.timeout⟩

/-- Attempt whose send raises a socket error. -/
def sendErrEnv : AttemptEnv := ⟨false, SockRes.timeout, SockRes.timeout⟩

/-- Attempt receiving a full header and a body rejected by the device
(ret_code 1, err_msg busy). -/
def rejectEnv : AttemptEnv := ⟨true, SockRes.bytes hdr20, SockRes.bytes [98]⟩

/-- Attempt receiving a full header and a successful body. -/
def okEnv : AttemptEnv := ⟨true, SockRes.bytes hdr20, SockRes.bytes [48]⟩

/-- Attempt receiving an oversized header. -/
def oversizeEnv : AttemptEnv := ⟨true, SockRes.bytes hdrBig, SockRes.timeout⟩

/-- Attempt receiving only 3 header bytes. -/
def shortHdrEnv : AttemptEnv := ⟨true, SockRes.bytes [1, 2, 3], SockRes.timeout⟩

/-!
Shutdown model.  The finally block of agv_keyboard_control
(src/agv_control.py lines 122-127) logs, then, if the socket object is
truthy, sends the official stop command (retry=0, best effort: every
exception inside send_control_command is caught) and only afterwards
closes the socket.
-/

/-- Observable events of the shutdown path. -/
inductive ShutEv where
  | logStopMsg
  | sendStopCmd
  | closeConn
  | logExit
deriving Repr, DecidableEq

/-- Model of the finally block of agv_keyboard_control
(src/agv_control.py lines 122-127): `conn` is the truthiness of the
module-level socket object `so`. -/
def agv_shutdown_trace (conn : Bool) : List ShutEv :=
  [ShutEv.logStopMsg] ++
  (if conn then [ShutEv.sendStopCmd, ShutEv.closeConn] else []) ++
  [ShutEv.logExit]

/-- Decides that every closeConn occurrence in a trace is preceded by
an earlier sendStopCmd occurrence; `seen` records whether a
sendStopCmd has already been passed. -/
def stopBeforeClose (seen : Bool) : List ShutEv → Bool
  | [] => true
  | ShutEv.closeConn :: t => seen && stopBeforeClose seen t
  | ShutEv.sendStopCmd :: t => stopBeforeClose true t
  | _ :: t => stopBeforeClose seen t

/-- Sleep events contributed by one failing attempt that is not the
last one: the two continue branches skip the sleep. -/
def attemptSleep (st : Step) : List Ev :=
  if st ≠ Step.contShort ∧ st ≠ Step.contOversize then [Ev.sleep] else []

/-- Concrete unpack function for the laser witnesses: first byte is the
declared length, second the response type. -/
def unpackLaser (h : List Nat) : Nat × Nat := (h.headD 0, h.tail.headD 0)

/-- Concrete laser JSON parser: byte list 123,125 is the empty object
(no lasers key, default empty list), anything else fails. -/
def parseLaserEmpty (b : List Nat) : Option LaserJson :=
  if b = [123, 125] then some ⟨[]⟩ else none

/-- Concrete laser header declaring a 2-byte body of response type
11009. -/
def hdrLaser : List Nat := [2, 11009, 0, 0, 0, 0, 0, 0, 0, 0, 0, 0, 0, 0, 0, 0]

/-- Socket delivering a laser response whose body decodes to an empty
beam-group list. -/
def sockEmptyLasers : Sock := ⟨hdrLaser ++ [123, 125], []⟩

/-- Socket on which the peer closes after three header bytes. -/
def sockShortHdr : Sock := ⟨[1, 2, 3], []⟩

/-!
Sanity evaluations of the models on concrete inputs, followed by the
helper lemmas about the retry loop on homogeneous scripts.
-/

example : (receive_full_data ⟨[1, 2, 3], []⟩ 3).1 = some [1, 2, 3] := by
  simp [receive_full_data, receive_full_loop, Sock.recv]
example : (receive_full_data ⟨[1, 2], []⟩ 3).1 = none := by
  simp [receive_full_data, receive_full_loop, Sock.recv]
example : receive_full_data ⟨[1, 2], []⟩ 0 = (some [], ⟨[1, 2], []⟩, 0) := by
  simp [receive_full_data, receive_full_loop, Sock.recv]
example : (receive_full_data ⟨[1, 2, 3, 4], [1]⟩ 3).1 = some [1, 2, 3] := by
  simp [receive_full_data, receive_full_loop, Sock.recv]

/-- All configuration checks of src/agv_laser_get.py succeed on the
module constants. -/
lemma validations_true : (validate_configuration && validate_laser_params) = true := by
  rw [validate_configuration, validate_laser_params]
  norm_num [AGV_IP, API_PORT_STATE, LASER_STEP, LASER_RANGE_MIN, LASER_RANGE_MAX,
    ROS_PUB_FREQ]
  decide

example :
    collectValid LASER_RANGE_MIN LASER_RANGE_MAX
      [⟨[⟨some 0, some 1, some true⟩, ⟨some (1 / 10), some 30, some true⟩,
         ⟨some (1 / 5), some 2, some false⟩]⟩] = [(0, 1)] := by
  norm_num [collectValid, beamKeep, List.filterMap_cons, List.filterMap_nil,
    Option.getD, LASER_RANGE_MIN, LASER_RANGE_MAX]

example :
    send_control_command unpackDemo parseDemo true 1 [timeoutEnv, timeoutEnv] =
      (false, [Ev.send, Ev.recvHdr, Ev.sleep, Ev.send, Ev.recvHdr]) := by decide

example :
    send_control_command unpackDemo parseDemo true 1 [rejectEnv, okEnv] =
      (true, [Ev.send, Ev.recvHdr, Ev.recvBody, Ev.logErr "busy", Ev.sleep,
              Ev.send, Ev.recvHdr, Ev.recvBody]) := by decide

example :
    send_control_command unpackDemo parseDemo true 1 [oversizeEnv, okEnv] =
      (true, [Ev.send, Ev.recvHdr, Ev.send, Ev.recvHdr, Ev.recvBody]) := by decide

example : stopBeforeClose false (agv_shutdown_trace true) = true := by decide
example : stopBeforeClose false (agv_shutdown_trace false) = true := by decide
example : stopBeforeClose false [ShutEv.closeConn, ShutEv.sendStopCmd] = false := by decide

/-- One unfolding of the retry loop on a non-final attempt. -/
lemma runLoop_succ_succ (U : List Nat → Nat × Nat) (P : List Nat → Option RespJson)
    (io : AttemptEnv) (rest : List AttemptEnv) (k : Nat) :
    runLoop U P (k + 1 + 1) (io :: rest) =
      if (runAttempt U P true io).2 = Step.success then (true, (runAttempt U P true io).1)
      else
        ((runLoop U P (k + 1) rest).1,
         (runAttempt U P true io).1 ++ attemptSleep (runAttempt U P true io).2 ++
           (runLoop U P (k + 1) rest).2) := by
  simp [runLoop, attemptSleep]

/-- One unfolding of the retry loop on the final attempt. -/
lemma runLoop_one (U : List Nat → Nat × Nat) (P : List Nat → Option RespJson)
    (io : AttemptEnv) (rest : List AttemptEnv) :
    runLoop U P 1 (io :: rest) =
      if (runAttempt U P false io).2 = Step.success then (true, (runAttempt U P false io).1)
      else (false, (runAttempt U P false io).1) := by
  simp [runLoop]

/-- Trace of a run in which every attempt fails the same way and the
attempt events do not depend on the reconnect guard: each non-final
attempt contributes its events plus the possible sleep, the final one
only its events, and the run returns False. -/
lemma runLoop_replicate_fail (U : List Nat → Nat × Nat) (P : List Nat → Option RespJson)
    (io : AttemptEnv) (evs : List Ev) (st : Step)
    (hru : ∀ c, runAttempt U P c io = (evs, st)) (hsu : st ≠ Step.success) :
    ∀ n, runLoop U P n (List.replicate n io) =
      (false, (List.replicate (n - 1) (evs ++ attemptSleep st)).flatten ++
              (if n = 0 then [] else evs)) := by
  intro n
  induction n with
  | zero => simp [runLoop]
  | succ m ih =>
      cases m with
      | zero =>
          simp [runLoop, hru, hsu, attemptSleep]
      | succ k =>
          rw [List.replicate_succ, runLoop_succ_succ, ih]
          simp [hru, hsu, List.replicate_succ, List.append_assoc]

/-- Trace of a run in which every attempt fails with a socket error on
send: non-final attempts reconnect (close plus connect, lines 70-72 of
src/agv_control.py, modelled as one reconnect event) and sleep; the
final attempt does not reconnect. -/
lemma runLoop_replicate_sockErr (U : List Nat → Nat × Nat) (P : List Nat → Option RespJson)
    (io : AttemptEnv) (base : List Ev)
    (hru : ∀ c, runAttempt U P c io =
      (base ++ (if c then [Ev.reconnect] else []), Step.caughtSockErr)) :
    ∀ n, runLoop U P n (List.replicate n io) =
      (false, (List.replicate (n - 1) (base ++ [Ev.reconnect, Ev.sleep])).flatten ++
              (if n = 0 then [] else base)) := by
  intro n
  induction n with
  | zero => simp [runLoop]
  | succ m ih =>
      cases m with
      | zero =>
          simp [runLoop, hru, attemptSleep]
      | succ k =>
          rw [List.replicate_succ, runLoop_succ_succ, ih]
          simp [hru, attemptSleep, List.replicate_succ, List.append_assoc]

/-- Attempt outcome: header recv times out. -/
lemma runAttempt_timeout (U : List Nat → Nat × Nat) (P : List Nat → Option RespJson)
    (c : Bool) :
    runAttempt U P c timeoutEnv = ([Ev.send, Ev.recvHdr], Step.caughtTimeout) := by
  simp [runAttempt, timeoutEnv]

/-- Attempt outcome: send raises a socket error. -/
lemma runAttempt_sendErr (U : List Nat → Nat × Nat) (P : List Nat → Option RespJson)
    (c : Bool) :
    runAttempt U P c sendErrEnv =
      ([Ev.send] ++ (if c then [Ev.reconnect] else []), Step.caughtSockErr) := by
  simp [runAttempt, sendErrEnv]

/-- Attempt outcome: the header recv returns a wrong byte count, the
attempt is abandoned by continue with neither a body read nor a
sleep contribution. -/
lemma runAttempt_shortHdr (U : List Nat → Nat × Nat) (P : List Nat → Option RespJson)
    (c : Bool) (h : List Nat) (bodyRes : SockRes) (hh : h.length ≠ 16) :
    runAttempt U P c ⟨true, SockRes.bytes h, bodyRes⟩ =
      ([Ev.send, Ev.recvHdr], Step.contShort) := by
  simp [runAttempt, hh]

/-- Attempt outcome: the header declares an oversized body and the
attempt is abandoned by continue before any body read. -/
lemma runAttempt_oversize (U : List Nat → Nat × Nat) (P : List Nat → Option RespJson)
    (c : Bool) (h : List Nat) (bodyRes : SockRes)
    (hh : h.length = 16) (hL : (U h).1 > 10 * 1024 * 1024) :
    runAttempt U P c ⟨true, SockRes.bytes h, bodyRes⟩ =
      ([Ev.send, Ev.recvHdr], Step.contOversize) := by
  simp [runAttempt, hh, hL]

/-- Attempt outcome: full header, in-bound length, body parses with a
non-zero ret_code: the vendor message is logged and the iteration falls
through to the bottom of the loop body. -/
lemma runAttempt_reject (U : List Nat → Nat × Nat) (P : List Nat → Option RespJson)
    (c : Bool) (h b : List Nat) (j : RespJson)
    (hh : h.length = 16) (hL : (U h).1 ≤ 10 * 1024 * 1024) (hL0 : (U h).1 ≠ 0)
    (hP : P b = some j) (hrc : j.ret_code.getD 0 ≠ 0) :
    runAttempt U P c ⟨true, SockRes.bytes h, SockRes.bytes b⟩ =
      ([Ev.send, Ev.recvHdr, Ev.recvBody, Ev.logErr (j.err_msg.getD "未知错误")],
       Step.appRejected) := by
  have hnl : ¬((U h).1 > 10 * 1024 * 1024) := not_lt.mpr hL
  simp [runAttempt, hh, hnl, hL0, hP, hrc]

/-- Attempt outcome: full header, in-bound length, body parses with
ret_code 0 (present or defaulted): the function returns True. -/
lemma runAttempt_success_body (U : List Nat → Nat × Nat) (P : List Nat → Option RespJson)
    (c : Bool) (h b : List Nat) (j : RespJson)
    (hh : h.length = 16) (hL : (U h).1 ≤ 10 * 1024 * 1024) (hL0 : (U h).1 ≠ 0)
    (hP : P b = some j) (hrc : j.ret_code.getD 0 = 0) :
    runAttempt U P c ⟨true, SockRes.bytes h, SockRes.bytes b⟩ =
      ([Ev.send, Ev.recvHdr, Ev.recvBody], Step.success) := by
  have hnl : ¬((U h).1 > 10 * 1024 * 1024) := not_lt.mpr hL
  simp [runAttempt, hh, hnl, hL0, hP, hrc]

/-- Counting an event distributes over trace concatenation. -/
lemma countEv_append (e : Ev) (l1 l2 : List Ev) :
    countEv e (l1 ++ l2) = countEv e l1 + countEv e l2 := by
  induction l1 with
  | nil => simp [countEv]
  | cons x t ih => simp [countEv, ih]; omega

/-- Counting an event in a flattened replicated trace. -/
lemma countEv_flatten_replicate (e : Ev) (k : Nat) (l : List Ev) :
    countEv e ((List.replicate k l).flatten) = k * countEv e l := by
  induction k with
  | zero => simp [countEv]
  | succ m ih =>
      rw [List.replicate_succ]
      simp only [List.flatten_cons, countEv_append, ih]
      ring

/-- A recv call never delivers more bytes than requested. -/
lemma Sock.recv_fst_length_le (s : Sock) (m : Nat) : ((s.recv m).1).length ≤ m := by
  rw [Sock.recv]
  split
  · simp
  · simp only [List.length_take]
    omega

/-- A recv call never delivers more bytes than the stream holds. -/
lemma Sock.recv_fst_le_data (s : Sock) (m : Nat) :
    ((s.recv m).1).length ≤ s.data.length := by
  rw [Sock.recv]
  split
  · simp
  · simp only [List.length_take]
    omega

/-- Bytes remaining in the stream after a recv call. -/
lemma Sock.recv_snd_data (s : Sock) (m : Nat) :
    ((s.recv m).2).data.length = s.data.length - ((s.recv m).1).length := by
  rw [Sock.recv]
  split
  · simp
  · simp only [List.length_take, List.length_drop]
    omega

/-- If the peer closes before `remaining` bytes arrive, the accumulation
loop reports the failure (returns none), never a partial buffer. -/
lemma receive_full_loop_short :
    ∀ (remaining : Nat) (s : Sock) (acc : List Nat) (cnt : Nat),
      s.data.length < remaining → (receive_full_loop s remaining acc cnt).1 = none := by
  intro remaining
  induction remaining using Nat.strong_induction_on with
  | _ remaining ih =>
      intro s acc cnt hlt
      have hpos : 0 < remaining := by omega
      rw [receive_full_loop, dif_pos hpos]
      by_cases hc : (s.recv (min remaining 8192)).1 = []
      · rw [dif_pos hc]
      · rw [dif_neg hc]
        have hlen := List.length_pos.mpr hc
        have h1 := Sock.recv_snd_data s (min remaining 8192)
        have h2 := Sock.recv_fst_le_data s (min remaining 8192)
        exact ih _ (by omega) _ _ _ (by omega)

/-- Whenever receive_full_data returns a buffer, the buffer has exactly
the requested length. -/
lemma receive_full_data_some_length (s : Sock) (n : Nat) (bs : List Nat)
    (h : (receive_full_data s n).1 = some bs) : bs.length = n := by
  unfold receive_full_data at h
  rcases hro : receive_full_loop s n [] 0 with ⟨o, s2, c⟩
  rw [hro] at h
  cases o with
  | none => simp at h
  | some received =>
      simp only at h
      by_cases hl : received.length = n
      · rw [if_pos hl] at h
        cases h
        exact hl
      · rw [if_neg hl] at h
        cases h

/-- If the peer closes before the declared length arrives,
receive_full_data returns none. -/
lemma receive_full_data_short (s : Sock) (n : Nat) (h : s.data.length < n) :
    (receive_full_data s n).1 = none := by
  have hl := receive_full_loop_short n s [] 0 h
  unfold receive_full_data
  rcases hro : receive_full_loop s n [] 0 with ⟨o, s2, c⟩
  rw [hro] at hl
  cases o with
  | none => simp
  | some received => simp at hl

/-- For a zero expected length the loop body never runs: no recv call
is made and the empty buffer is returned at once. -/
lemma receive_full_data_zero (s : Sock) : receive_full_data s 0 = (some [], s, 0) := by
  simp [receive_full_data, receive_full_loop]

/-- Unrolling the appending fold of the beam-collection loop. -/
lemma collectValid_foldl (rmin rmax : ℚ) :
    ∀ (ls : List LaserGroup) (acc : List (ℚ × ℚ)),
      ls.foldl (fun a g => a ++ g.beams.filterMap (beamKeep rmin rmax)) acc =
        acc ++ ((ls.map fun g => g.beams).flatten).filterMap (beamKeep rmin rmax) := by
  intro ls
  induction ls with
  | nil => simp
  | cons g t ih =>
      intro acc
      simp [ih, List.filterMap_append, List.append_assoc]

/-- The per-beam test of the source coincides pointwise with the
admission rule stated in the specification. -/
lemma beamKeep_eq_spec (rmin rmax : ℚ) (b : Beam) :
    beamKeep rmin rmax b =
      (match b.angle, b.dist with
       | some a, some d =>
           if b.valid.getD false = true ∧ rmin ≤ d ∧ d ≤ rmax then some (a, d) else none
       | _, _ => none) := by
  rcases b with ⟨oa, od, ov⟩
  cases oa with
  | none => cases od <;> simp [beamKeep]
  | some a =>
      cases od with
      | none => simp [beamKeep]
      | some d =>
          simp only [beamKeep]
          by_cases hv : ov.getD false = true
          · by_cases hr : rmin ≤ d ∧ d ≤ rmax <;> simp [hv, hr]
          · simp [hv]

/-!
Claim theorems.
-/

/-- C4: if every attempt fails with a timeout, send_control_command
performs exactly retry + 1 send attempts and then returns False; being
a total function of its scripted inputs, it always terminates. -/
theorem C4_retry_bound (U : List Nat → Nat × Nat) (P : List Nat → Option RespJson)
    (retry : Nat) :
    (send_control_command U P true retry (List.replicate (retry + 1) timeoutEnv)).1
        = false ∧
    countEv Ev.send
        (send_control_command U P true retry
          (List.replicate (retry + 1) timeoutEnv)).2 = retry + 1 := by
  have h := runLoop_replicate_fail U P timeoutEnv [Ev.send, Ev.recvHdr]
    Step.caughtTimeout (runAttempt_timeout U P) (by simp) (retry + 1)
  have hone : countEv Ev.send ([Ev.send, Ev.recvHdr] ++ attemptSleep Step.caughtTimeout)
      = 1 := by decide
  constructor
  · simp [send_control_command, h]
  · simp only [send_control_command, Bool.not_true, Bool.false_eq_true, if_false, h]
    rw [countEv_append, countEv_flatten_replicate, hone]
    simp [countEv]

/-- C6: the beam filter keeps, in source order over the flattened beam
groups, exactly the beams that carry both an angle and a distance
field, have validity flag true, and whose distance lies within the
configured bounds; on the three-beam example with range 0.1 to 5.0 the
result is exactly the single pair (0, 1.0). -/
theorem C6_beam_filter :
    (∀ (rmin rmax : ℚ) (lasers : List LaserGroup),
        collectValid rmin rmax lasers = specFilter rmin rmax lasers) ∧
    collectValid LASER_RANGE_MIN LASER_RANGE_MAX
        [⟨[⟨some 0, some 1, some true⟩, ⟨some (1 / 10), some 30, some true⟩,
           ⟨some (1 / 5), some 2, some false⟩]⟩] = [(0, 1)] := by
  constructor
  · intro rmin rmax lasers
    rw [collectValid, collectValid_foldl, List.nil_append, specFilter]
    congr 1
    funext b
    exact beamKeep_eq_spec rmin rmax b
  · norm_num [collectValid, beamKeep, List.filterMap_cons, List.filterMap_nil,
      Option.getD, LASER_RANGE_MIN, LASER_RANGE_MAX]

/-- C8: in every shutdown path of agv_keyboard_control, a closeConn
event is preceded by a sendStopCmd event, and when a connection exists
the stop command is indeed sent. -/
theorem C8_stop_before_close (conn : Bool) :
    stopBeforeClose false (agv_shutdown_trace conn) = true ∧
    (conn = true → ShutEv.sendStopCmd ∈ agv_shutdown_trace conn) := by
  cases conn with
  | false => exact ⟨by decide, fun h => by cases h⟩
  | true => exact ⟨by decide, fun _ => by decide⟩

/-- C8 witness: the connected shutdown path sends the stop command and
the stop precedes the close. -/
theorem C8_stop_before_close_witness :
    stopBeforeClose false (agv_shutdown_trace true) = true ∧
    ShutEv.sendStopCmd ∈ agv_shutdown_trace true :=
  ⟨(C8_stop_before_close true).1, (C8_stop_before_close true).2 rfl⟩

/-- C9: a response body that parses as JSON but has no ret_code field
is treated as success (the read of ret_code defaults to 0), so
send_control_command returns True on its first attempt. -/
theorem C9_missing_ret_code_success (U : List Nat → Nat × Nat)
    (P : List Nat → Option RespJson) (retry : Nat) (rest : List AttemptEnv)
    (h b : List Nat) (j : RespJson)
    (hh : h.length = 16) (hL : (U h).1 ≤ 10 * 1024 * 1024) (hL0 : (U h).1 ≠ 0)
    (hP : P b = some j) (hrc : j.ret_code = none) :
    (send_control_command U P true retry
        (⟨true, SockRes.bytes h, SockRes.bytes b⟩ :: rest)).1 = true := by
  have hrc0 : j.ret_code.getD 0 = 0 := by simp [hrc]
  have hs := runAttempt_success_body U P ((retry : Nat) != 0) h b j hh hL hL0 hP hrc0
  simp only [send_control_command, Bool.not_true, Bool.false_eq_true, if_false]
  simp [runLoop, hs]

/-- C9 witness: concrete run with body bytes for an empty JSON object
(no ret_code) returns True. -/
theorem C9_missing_ret_code_success_witness :
    (send_control_command unpackDemo parseDemo true 0
        [⟨true, SockRes.bytes hdr20, SockRes.bytes [123, 125]⟩]).1 = true :=
  C9_missing_ret_code_success unpackDemo parseDemo 0 [] hdr20 [123, 125]
    ⟨none, none⟩ (by decide) (by decide) (by decide) (by decide) rfl

/-- C10: receive_full_data never returns a buffer whose length differs
from the expected length, and for expected length 0 it returns the
empty buffer immediately with zero recv calls and the socket
untouched. -/
theorem C10_receive_exact (s : Sock) (n : Nat) :
    (∀ bs, (receive_full_data s n).1 = some bs → bs.length = n) ∧
    receive_full_data s 0 = (some [], s, 0) :=
  ⟨fun bs h => receive_full_data_some_length s n bs h, receive_full_data_zero s⟩

/-- C10 witness: a two-byte read returns exactly two bytes, and a
zero-byte read touches nothing. -/
theorem C10_receive_exact_witness :
    ([5, 6] : List Nat).length = 2 ∧
    receive_full_data ⟨[9], []⟩ 0 = (some [], ⟨[9], []⟩, 0) :=
  ⟨(C10_receive_exact ⟨[5, 6], []⟩ 2).1 [5, 6]
      (by simp [receive_full_data, receive_full_loop, Sock.recv]),
   (C10_receive_exact ⟨[9], []⟩ 0).2⟩

/-- C1 counterexample: with retry = 1, a first attempt whose body
carries ret_code 1 and err_msg busy is followed by a second full send
attempt, and the call even returns True when that second attempt
succeeds — a device-rejected command is retried, no error value is
returned, contradicting the claim that no further send attempt is
performed. -/
theorem C1_counterexample :
    send_control_command unpackDemo parseDemo true 1 [rejectEnv, okEnv] =
      (true, [Ev.send, Ev.recvHdr, Ev.recvBody, Ev.logErr "busy", Ev.sleep,
              Ev.send, Ev.recvHdr, Ev.recvBody]) ∧
    countEv Ev.send
      (send_control_command unpackDemo parseDemo true 1 [rejectEnv, okEnv]).2 = 2 := by
  decide

/-- C1 amended: on a non-zero ret_code the source logs the vendor error
message and falls through to the bottom of the retry loop: the rejected
command is retried like any failure, the vendor message is logged on
every attempt, and when every attempt is rejected the call performs
retry + 1 send attempts and returns False (no error value is ever
returned). -/
theorem C1_amended_rejected_retried (U : List Nat → Nat × Nat)
    (P : List Nat → Option RespJson) (retry : Nat) (h b : List Nat) (j : RespJson)
    (hh : h.length = 16) (hL : (U h).1 ≤ 10 * 1024 * 1024) (hL0 : (U h).1 ≠ 0)
    (hP : P b = some j) (hrc : j.ret_code.getD 0 ≠ 0) :
    (send_control_command U P true retry
        (List.replicate (retry + 1) ⟨true, SockRes.bytes h, SockRes.bytes b⟩)).1
      = false ∧
    countEv Ev.send
      (send_control_command U P true retry
        (List.replicate (retry + 1) ⟨true, SockRes.bytes h, SockRes.bytes b⟩)).2
      = retry + 1 ∧
    countEv (Ev.logErr (j.err_msg.getD "未知错误"))
      (send_control_command U P true retry
        (List.replicate (retry + 1) ⟨true, SockRes.bytes h, SockRes.bytes b⟩)).2
      = retry + 1 := by
  have hr := runLoop_replicate_fail U P ⟨true, SockRes.bytes h, SockRes.bytes b⟩
    [Ev.send, Ev.recvHdr, Ev.recvBody, Ev.logErr (j.err_msg.getD "未知错误")]
    Step.appRejected
    (fun c => runAttempt_reject U P c h b j hh hL hL0 hP hrc) (by simp) (retry + 1)
  have hbase : attemptSleep Step.appRejected = [Ev.sleep] := by decide
  refine ⟨by simp [send_control_command, hr], ?_, ?_⟩
  · simp only [send_control_command, Bool.not_true, Bool.false_eq_true, if_false, hr]
    rw [countEv_append, countEv_flatten_replicate, hbase]
    simp [countEv]
  · simp only [send_control_command, Bool.not_true, Bool.false_eq_true, if_false, hr]
    rw [countEv_append, countEv_flatten_replicate, hbase]
    simp [countEv]

/-- C1 witness: two rejected attempts with retry = 1 give two sends,
two busy logs and a False result. -/
theorem C1_amended_rejected_retried_witness :
    (send_control_command unpackDemo parseDemo true 1
        (List.replicate 2 rejectEnv)).1 = false ∧
    countEv Ev.send
      (send_control_command unpackDemo parseDemo true 1
        (List.replicate 2 rejectEnv)).2 = 2 ∧
    countEv (Ev.logErr "busy")
      (send_control_command unpackDemo parseDemo true 1
        (List.replicate 2 rejectEnv)).2 = 2 :=
  C1_amended_rejected_retried unpackDemo parseDemo 1 hdr20 [98] ⟨some 1, some "busy"⟩
    (by decide) (by decide) (by decide) (by decide) (by decide)

/-- C2 counterexample: with retry = 1 an oversized declared length does
not end the call: the attempt is abandoned by continue and a second
full send attempt follows (which here succeeds), so the size-limit
failure in the control client is retried rather than surfaced
immediately. -/
theorem C2_counterexample :
    send_control_command unpackDemo parseDemo true 1 [oversizeEnv, okEnv] =
      (true, [Ev.send, Ev.recvHdr, Ev.send, Ev.recvHdr, Ev.recvBody]) ∧
    countEv Ev.send
      (send_control_command unpackDemo parseDemo true 1 [oversizeEnv, okEnv]).2 = 2 := by
  decide

/-- C2 amended: a declared length over 10 MiB is rejected before any
body read in both clients, but only the laser client fails immediately
(returns None after the single header read); the control client
abandons the attempt by continue (no body read, not even the 0.5 s
sleep) and retries the whole exchange, returning False only after
retry + 1 attempts all see oversized frames. -/
theorem C2_amended_size_limit :
    (∀ (U : List Nat → Nat × Nat) (P : List Nat → Option LaserJson) (s : Sock),
        ((s.recv 16).1).length = 16 → (U ((s.recv 16).1)).1 > MAX_DATA_LEN →
        get_laser_from_agv U P s = (none, 1)) ∧
    (∀ (U : List Nat → Nat × Nat) (P : List Nat → Option RespJson) (retry : Nat)
        (h : List Nat) (bodyRes : SockRes),
        h.length = 16 → (U h).1 > 10 * 1024 * 1024 →
        (send_control_command U P true retry
            (List.replicate (retry + 1) ⟨true, SockRes.bytes h, bodyRes⟩)).1 = false ∧
        countEv Ev.recvBody
          (send_control_command U P true retry
            (List.replicate (retry + 1) ⟨true, SockRes.bytes h, bodyRes⟩)).2 = 0 ∧
        countEv Ev.sleep
          (send_control_command U P true retry
            (List.replicate (retry + 1) ⟨true, SockRes.bytes h, bodyRes⟩)).2 = 0 ∧
        countEv Ev.send
          (send_control_command U P true retry
            (List.replicate (retry + 1) ⟨true, SockRes.bytes h, bodyRes⟩)).2
          = retry + 1) := by
  constructor
  · intro U P s hh hL
    simp [get_laser_from_agv, validations_true, hh, hL]
  · intro U P retry h bodyRes hh hL
    have hr := runLoop_replicate_fail U P ⟨true, SockRes.bytes h, bodyRes⟩
      [Ev.send, Ev.recvHdr] Step.contOversize
      (fun c => runAttempt_oversize U P c h bodyRes hh hL) (by simp) (retry + 1)
    have hsl : attemptSleep Step.contOversize = [] := by decide
    refine ⟨by simp [send_control_command, hr], ?_, ?_, ?_⟩ <;>
      · simp only [send_control_command, Bool.not_true, Bool.false_eq_true, if_false, hr]
        rw [countEv_append, countEv_flatten_replicate, hsl]
        simp [countEv]

/-- C2 witness: concrete oversized header on both paths. -/
theorem C2_amended_size_limit_witness :
    get_laser_from_agv unpackLaser parseLaserEmpty ⟨hdrBig ++ [7], []⟩ = (none, 1) ∧
    (send_control_command unpackDemo parseDemo true 1
        (List.replicate 2 oversizeEnv)).1 = false ∧
    countEv Ev.recvBody
      (send_control_command unpackDemo parseDemo true 1
        (List.replicate 2 oversizeEnv)).2 = 0 :=
  ⟨C2_amended_size_limit.1 unpackLaser parseLaserEmpty ⟨hdrBig ++ [7], []⟩
      (by decide) (by decide),
   (C2_amended_size_limit.2 unpackDemo parseDemo 1 hdrBig SockRes.timeout
      (by decide) (by decide)).1,
   (C2_amended_size_limit.2 unpackDemo parseDemo 1 hdrBig SockRes.timeout
      (by decide) (by decide)).2.1⟩

/-- C3 counterexample: with retry = 1 a first attempt that fails by
timeout (a transport failure) is retried after the 0.5 s sleep with no
reconnect event at all — the client does not close and reconnect before
retrying after a timeout. -/
theorem C3_counterexample :
    send_control_command unpackDemo parseDemo true 1 [timeoutEnv, timeoutEnv] =
      (false, [Ev.send, Ev.recvHdr, Ev.sleep, Ev.send, Ev.recvHdr]) ∧
    countEv Ev.reconnect
      (send_control_command unpackDemo parseDemo true 1
        [timeoutEnv, timeoutEnv]).2 = 0 := by
  decide

/-- C3 amended: only a socket error triggers close-and-reconnect, and
only while attempts remain; each such retry is preceded by one
reconnect and the 0.5 s sleep.  A timeout is retried on the same
connection (no reconnect) after the sleep, and a short header read is
retried with neither reconnect nor sleep. -/
theorem C3_amended_reconnect_policy (U : List Nat → Nat × Nat)
    (P : List Nat → Option RespJson) (retry : Nat) :
    ((send_control_command U P true retry
        (List.replicate (retry + 1) sendErrEnv)).1 = false ∧
     countEv Ev.send
       (send_control_command U P true retry
         (List.replicate (retry + 1) sendErrEnv)).2 = retry + 1 ∧
     countEv Ev.reconnect
       (send_control_command U P true retry
         (List.replicate (retry + 1) sendErrEnv)).2 = retry ∧
     countEv Ev.sleep
       (send_control_command U P true retry
         (List.replicate (retry + 1) sendErrEnv)).2 = retry) ∧
    (countEv Ev.reconnect
       (send_control_command U P true retry
         (List.replicate (retry + 1) timeoutEnv)).2 = 0 ∧
     countEv Ev.sleep
       (send_control_command U P true retry
         (List.replicate (retry + 1) timeoutEnv)).2 = retry) ∧
    (countEv Ev.reconnect
       (send_control_command U P true retry
         (List.replicate (retry + 1) shortHdrEnv)).2 = 0 ∧
     countEv Ev.sleep
       (send_control_command U P true retry
         (List.replicate (retry + 1) shortHdrEnv)).2 = 0) := by
  have hse := runLoop_replicate_sockErr U P sendErrEnv [Ev.send]
    (runAttempt_sendErr U P) (retry + 1)
  have hto := runLoop_replicate_fail U P timeoutEnv [Ev.send, Ev.recvHdr]
    Step.caughtTimeout (runAttempt_timeout U P) (by simp) (retry + 1)
  have hsh := runLoop_replicate_fail U P shortHdrEnv [Ev.send, Ev.recvHdr]
    Step.contShort (fun c => runAttempt_shortHdr U P c [1, 2, 3] SockRes.timeout
      (by decide)) (by simp) (retry + 1)
  refine ⟨⟨by simp [send_control_command, hse], ?_, ?_, ?_⟩, ⟨?_, ?_⟩, ⟨?_, ?_⟩⟩ <;>
    · first
      | (simp only [send_control_command, Bool.not_true, Bool.false_eq_true,
          if_false, hse]
         rw [countEv_append, countEv_flatten_replicate]
         simp [countEv])
      | (simp only [send_control_command, Bool.not_true, Bool.false_eq_true,
          if_false, hto]
         rw [countEv_append, countEv_flatten_replicate]
         simp [countEv, attemptSleep])
      | (simp only [send_control_command, Bool.not_true, Bool.false_eq_true,
          if_false, hsh]
         rw [countEv_append, countEv_flatten_replicate]
         simp [countEv, attemptSleep])

/-- C5 counterexample: the control client reads the body with a single
recv and never checks its length: a header declaring 20 bytes followed
by a 2-byte body that parses as an empty JSON object is accepted and
the call returns True — the exchange proceeds on a partially-read
body. -/
theorem C5_counterexample :
    (unpackDemo hdr20).1 = 20 ∧ ([123, 125] : List Nat).length = 2 ∧
    send_control_command unpackDemo parseDemo true 0
        [⟨true, SockRes.bytes hdr20, SockRes.bytes [123, 125]⟩] =
      (true, [Ev.send, Ev.recvHdr, Ev.recvBody]) := by
  decide

/-- C5 amended: only the laser body read (receive_full_data) loops to
accumulate exactly the declared byte count and fails with None when the
peer closes mid-read; the header reads in both clients are single recv
calls whose short result abandons the exchange; the control-path body
read is a single recv whose result is passed to JSON decoding without
any length check, so a short body read can still yield success. -/
theorem C5_amended_framing :
    (∀ (s : Sock) (n : Nat) (bs : List Nat),
        (receive_full_data s n).1 = some bs → bs.length = n) ∧
    (∀ (s : Sock) (n : Nat), s.data.length < n → (receive_full_data s n).1 = none) ∧
    (∀ (U : List Nat → Nat × Nat) (P : List Nat → Option RespJson) (c : Bool)
        (h : List Nat) (bodyRes : SockRes),
        h.length ≠ 16 →
        runAttempt U P c ⟨true, SockRes.bytes h, bodyRes⟩ =
          ([Ev.send, Ev.recvHdr], Step.contShort)) ∧
    (∀ (U : List Nat → Nat × Nat) (P : List Nat → Option RespJson) (retry : Nat)
        (rest : List AttemptEnv) (h b : List Nat) (j : RespJson),
        h.length = 16 → (U h).1 ≤ 10 * 1024 * 1024 → (U h).1 ≠ 0 →
        P b = some j → j.ret_code.getD 0 = 0 →
        (send_control_command U P true retry
            (⟨true, SockRes.bytes h, SockRes.bytes b⟩ :: rest)).1 = true) := by
  refine ⟨receive_full_data_some_length, receive_full_data_short,
    fun U P c h bodyRes hh => runAttempt_shortHdr U P c h bodyRes hh, ?_⟩
  intro U P retry rest h b j hh hL hL0 hP hrc
  have hs := runAttempt_success_body U P ((retry : Nat) != 0) h b j hh hL hL0 hP hrc
  simp only [send_control_command, Bool.not_true, Bool.false_eq_true, if_false]
  simp [runLoop, hs]

/-- C5 witness: concrete instances of the four framing facts. -/
theorem C5_amended_framing_witness :
    ([7, 8] : List Nat).length = 2 ∧
    (receive_full_data ⟨[7], []⟩ 5).1 = none ∧
    runAttempt unpackDemo parseDemo true ⟨true, SockRes.bytes [1, 2, 3], SockRes.timeout⟩
      = ([Ev.send, Ev.recvHdr], Step.contShort) ∧
    (send_control_command unpackDemo parseDemo true 0
        [⟨true, SockRes.bytes hdr20, SockRes.bytes [48]⟩]).1 = true :=
  ⟨C5_amended_framing.1 ⟨[7, 8], []⟩ 2 [7, 8]
      (by simp [receive_full_data, receive_full_loop, Sock.recv]),
   C5_amended_framing.2.1 ⟨[7], []⟩ 5 (by decide),
   C5_amended_framing.2.2.1 unpackDemo parseDemo true [1, 2, 3] SockRes.timeout
      (by decide),
   C5_amended_framing.2.2.2 unpackDemo parseDemo 0 [] hdr20 [48] ⟨some 0, none⟩
      (by decide) (by decide) (by decide) (by decide) (by decide)⟩

/-- C7 counterexample: a decoded sensor payload with an empty beam-group
list makes get_laser_from_agv return None — not an empty sequence with
a distinct NoValidData signal — and that None is the very value a
transport failure (here a short header read) produces, so the caller
cannot distinguish the two. -/
theorem C7_counterexample :
    (get_laser_from_agv unpackLaser parseLaserEmpty sockEmptyLasers).1 = none ∧
    (get_laser_from_agv unpackLaser parseLaserEmpty sockEmptyLasers).1 =
      (get_laser_from_agv unpackLaser parseLaserEmpty sockShortHdr).1 := by
  constructor <;>
    simp [get_laser_from_agv, validations_true, unpackLaser, parseLaserEmpty,
      hdrLaser, sockEmptyLasers, sockShortHdr, Sock.recv, receive_full_data,
      receive_full_loop, MAX_DATA_LEN, ROBOT_STATUS_LASER_RESP, collectValid]

/-- C7 amended: when the beam groups are absent or empty, or every beam
is skipped by the filter, get_laser_from_agv logs a warning and returns
None — the same value it returns for transport and protocol failures
(for example a short header read) — so no NoValidData signal
distinguishable from an error result exists. -/
theorem C7_amended_no_distinct_signal (U : List Nat → Nat × Nat)
    (P : List Nat → Option LaserJson) :
    (∀ (s : Sock) (L : Nat) (body : List Nat) (j : LaserJson),
        ((s.recv 16).1).length = 16 →
        U ((s.recv 16).1) = (L, ROBOT_STATUS_LASER_RESP) →
        L ≤ MAX_DATA_LEN →
        (receive_full_data (s.recv 16).2 L).1 = some body →
        P body = some j →
        collectValid LASER_RANGE_MIN LASER_RANGE_MAX j.lasers = [] →
        (get_laser_from_agv U P s).1 = none) ∧
    (∀ s : Sock, ((s.recv 16).1).length ≠ 16 → (get_laser_from_agv U P s).1 = none) := by
  constructor
  · intro s L body j hh hU hL hbody hP hskip
    have hnl : ¬(L > MAX_DATA_LEN) := not_lt.mpr hL
    rcases htr : receive_full_data (s.recv 16).2 L with ⟨o, s2, c⟩
    rw [htr] at hbody
    simp only at hbody
    subst hbody
    by_cases hle : j.lasers.isEmpty
    · simp [get_laser_from_agv, validations_true, hh, hU, hnl, htr, hP, hle]
    · have hvb : (collectValid LASER_RANGE_MIN LASER_RANGE_MAX j.lasers).isEmpty
          = true := by rw [hskip]; rfl
      simp [get_laser_from_agv, validations_true, hh, hU, hnl, htr, hP, hle, hvb]
  · intro s hh
    simp [get_laser_from_agv, validations_true, hh]

/-- C7 witness: the empty-payload run and a short-header run both
return None. -/
theorem C7_amended_no_distinct_signal_witness :
    (get_laser_from_agv unpackLaser parseLaserEmpty sockEmptyLasers).1 = none ∧
    (get_laser_from_agv unpackLaser parseLaserEmpty sockShortHdr).1 = none :=
  ⟨(C7_amended_no_distinct_signal unpackLaser parseLaserEmpty).1 sockEmptyLasers
      2 [123, 125] ⟨[]⟩ (by decide) (by decide) (by decide)
      (by simp [receive_full_data, receive_full_loop, Sock.recv, sockEmptyLasers,
        hdrLaser])
      (by decide) (by rfl),
   (C7_amended_no_distinct_signal unpackLaser parseLaserEmpty).2 sockShortHdr
      (by decide)⟩
